import Mathlib

/-!
Verification of the SCS (Subsystem Communication Standard) packet codec,
color encoding, transition validator and NAVCON decision helpers of the
ERD320 MARV test-harness repository, as a shallow embedding in Lean 4.

The definitions below are direct translations of the Python sources:
* `src/Simulation/Core/scs_protocol.py`
* `src/Simulation/Python_Tests/Command_Tests/test_navcon_decisions.py`
* `src/Phase 1/NAVCON/Navcon_state.py`
* `src/Phase 1/NAVCON/NaVCON_Tester.py`
Python `int` is modelled as `Int` where sign checks matter (range
validation) and as `Nat` for the byte-level bit manipulation, which in the
source only ever runs on non-negative values.
-/

namespace SCS

/-- System states, `SYS[7:6]` bits of the control byte
(`scs_protocol.py`, `class SystemState`). -/
inductive SystemState
  | IDLE
  | CAL
  | MAZE
  | SOS
deriving DecidableEq, Repr

/-- Numeric value of a system state (the Python enum value). -/
def SystemState.val : SystemState → Nat
  | .IDLE => 0
  | .CAL => 1
  | .MAZE => 2
  | .SOS => 3

/-- Inverse of `SystemState.val` (Python `SystemState(x)`); callers only ever pass a 2-bit masked
value, so the catch-all branch is unreachable in the embedded code. -/
def SystemState.fromNat : Nat → SystemState
  | 0 => .IDLE
  | 1 => .CAL
  | 2 => .MAZE
  | _ => .SOS

/-- Subsystem identifiers, `SUB[5:4]` bits of the control byte
(`scs_protocol.py`, `class SubsystemID`). -/
inductive SubsystemID
  | HUB
  | SNC
  | MDPS
  | SS
deriving DecidableEq, Repr

/-- Numeric value of a subsystem identifier (the Python enum value). -/
def SubsystemID.val : SubsystemID → Nat
  | .HUB => 0
  | .SNC => 1
  | .MDPS => 2
  | .SS => 3

/-- Inverse of `SubsystemID.val` on 2-bit masked values. -/
def SubsystemID.fromNat : Nat → SubsystemID
  | 0 => .HUB
  | 1 => .SNC
  | 2 => .MDPS
  | _ => .SS

/-- Sensor colors (`scs_protocol.py`, `class SensorColor`). -/
inductive SensorColor
  | WHITE
  | RED
  | GREEN
  | BLUE
  | BLACK
deriving DecidableEq, Repr

/-- The 4-byte SCS packet (`scs_protocol.py`, `class SCSPacket`); its
fields are bytes once `__post_init__` validation has passed. -/
structure SCSPacket where
  control : Nat
  dat1 : Nat
  dat0 : Nat
  dec : Nat
deriving DecidableEq, Repr

/-- `SCSPacket.__post_init__`: constructing a packet validates that every
field lies in `[0, 255]`, raising `ValueError` otherwise.  Inputs are
`Int` because Python callers may pass negative values. -/
def mkSCSPacket (control dat1 dat0 dec : Int) : Except String SCSPacket :=
  if 0 ≤ control ∧ control ≤ 255 then
    if 0 ≤ dat1 ∧ dat1 ≤ 255 then
      if 0 ≤ dat0 ∧ dat0 ≤ 255 then
        if 0 ≤ dec ∧ dec ≤ 255 then
          .ok ⟨control.toNat, dat1.toNat, dat0.toNat, dec.toNat⟩
        else .error "dec must be 0-255"
      else .error "dat0 must be 0-255"
    else .error "dat1 must be 0-255"
  else .error "control must be 0-255"

/-- `SCSPacket.to_bytes`: the 4-byte wire image of a packet. -/
def SCSPacket.to_bytes (p : SCSPacket) : List Nat :=
  [p.control, p.dat1, p.dat0, p.dec]

/-- `SCSPacket.from_bytes`: rebuild a packet from a 4-byte sequence,
re-running the field validation; any other length is a format error. -/
def SCSPacket.from_bytes (data : List Nat) : Except String SCSPacket :=
  match data with
  | [b0, b1, b2, b3] => mkSCSPacket b0 b1 b2 b3
  | _ => .error "Packet must be 4 bytes"

/-- `SCSPacket.get_sys_state`: extract the system state from bits 7:6. -/
def SCSPacket.get_sys_state (p : SCSPacket) : SystemState :=
  SystemState.fromNat ((p.control >>> 6) &&& 0x03)

/-- `SCSPacket.get_subsystem`: extract the subsystem id from bits 5:4. -/
def SCSPacket.get_subsystem (p : SCSPacket) : SubsystemID :=
  SubsystemID.fromNat ((p.control >>> 4) &&& 0x03)

/-- `SCSPacket.get_ist`: extract the IST code from bits 3:0. -/
def SCSPacket.get_ist (p : SCSPacket) : Nat :=
  p.control &&& 0x0F

/-- `create_control_byte` (`scs_protocol.py`): pack state, subsystem and
IST into one byte, raising `ValueError` when `ist` is outside `[0, 15]`. -/
def create_control_byte (sys_state : SystemState) (subsystem : SubsystemID)
    (ist : Int) : Except String Nat :=
  if 0 ≤ ist ∧ ist ≤ 15 then
    .ok ((sys_state.val <<< 6) ||| (subsystem.val <<< 4) ||| (ist.toNat &&& 0x0F))
  else .error "IST must be 0-15"

/-- `parse_control_byte` (`scs_protocol.py`): split a control byte into
its three fields. -/
def parse_control_byte (control : Nat) : SystemState × SubsystemID × Nat :=
  (SystemState.fromNat ((control >>> 6) &&& 0x03),
   SubsystemID.fromNat ((control >>> 4) &&& 0x03),
   control &&& 0x0F)

/-- The spec's `encode(sys_state, subsystem, ist, dat1, dat0, dec)`:
`create_control_byte` followed by packet construction and `to_bytes`,
with the error propagation of the Python exceptions. -/
def encodePacket (s : SystemState) (sub : SubsystemID)
    (ist d1 d0 dc : Nat) : Except String (List Nat) :=
  match create_control_byte s sub ist with
  | .error e => .error e
  | .ok ctrl =>
    match mkSCSPacket ctrl d1 d0 dc with
    | .error e => .error e
    | .ok p => .ok p.to_bytes

/-- The spec's `decode(4 bytes)`: `from_bytes` followed by
`parse_control_byte`, returning the six fields. -/
def decodePacket (data : List Nat) :
    Except String (SystemState × SubsystemID × Nat × Nat × Nat × Nat) :=
  match SCSPacket.from_bytes data with
  | .error e => .error e
  | .ok p =>
    match parse_control_byte p.control with
    | (s, sub, ist) => .ok (s, sub, ist, p.dat1, p.dat0, p.dec)

theorem mkSCSPacket_ok (c d1 d0 dc : Nat)
    (hc : c ≤ 255) (h1 : d1 ≤ 255) (h0 : d0 ≤ 255) (hd : dc ≤ 255) :
    mkSCSPacket c d1 d0 dc = .ok ⟨c, d1, d0, dc⟩ := by
  unfold mkSCSPacket
  rw [if_pos (by omega), if_pos (by omega), if_pos (by omega), if_pos (by omega)]
  simp

theorem create_parse_roundtrip (s : SystemState) (sub : SubsystemID)
    (ist : Nat) (hist : ist ≤ 15) :
    ∃ ctrl, create_control_byte s sub ist = .ok ctrl ∧
      parse_control_byte ctrl = (s, sub, ist) ∧ ctrl ≤ 255 := by
  cases s <;> cases sub <;> interval_cases ist <;>
    exact ⟨_, rfl, by decide, by decide⟩

/-- C1: encoding any valid `(state, subsystem, ist, dat1, dat0, dec)` and
decoding the resulting 4-byte packet returns exactly the original six
fields; in particular `parse_control_byte` inverts `create_control_byte`
on every valid input. -/
theorem C1_packet_roundtrip (s : SystemState) (sub : SubsystemID)
    (ist d1 d0 dc : Nat) (hist : ist ≤ 15)
    (h1 : d1 ≤ 255) (h0 : d0 ≤ 255) (hd : dc ≤ 255) :
    (∃ ctrl, create_control_byte s sub ist = .ok ctrl ∧
      parse_control_byte ctrl = (s, sub, ist)) ∧
    (∃ bs, encodePacket s sub ist d1 d0 dc = .ok bs ∧
      decodePacket bs = .ok (s, sub, ist, d1, d0, dc)) := by
  obtain ⟨ctrl, hc, hp, hle⟩ := create_parse_roundtrip s sub ist hist
  refine ⟨⟨ctrl, hc, hp⟩, [ctrl, d1, d0, dc], ?_, ?_⟩
  · simp [encodePacket, hc, mkSCSPacket_ok ctrl d1 d0 dc hle h1 h0 hd,
      SCSPacket.to_bytes]
  · simp [decodePacket, SCSPacket.from_bytes,
      mkSCSPacket_ok ctrl d1 d0 dc hle h1 h0 hd, hp]

/-- Witness for C1 at a concrete valid input (MAZE, SS, IST 1,
dat1 0, dat0 16, dec 0). -/
theorem C1_packet_roundtrip_witness :
    (∃ ctrl, create_control_byte .MAZE .SS 1 = .ok ctrl ∧
      parse_control_byte ctrl = (.MAZE, .SS, 1)) ∧
    (∃ bs, encodePacket .MAZE .SS 1 0 16 0 = .ok bs ∧
      decodePacket bs = .ok (.MAZE, .SS, 1, 0, 16, 0)) :=
  C1_packet_roundtrip .MAZE .SS 1 0 16 0 (by decide) (by decide)
    (by decide) (by decide)

/-- The `color_bits` dictionary of `encode_color_byte`
(`scs_protocol.py`): the numeric value assigned to each sensor color. -/
def color_bits : SensorColor → Nat
  | .WHITE => 0
  | .RED => 1
  | .GREEN => 2
  | .BLUE => 3
  | .BLACK => 4

/-- `encode_color_byte` (`scs_protocol.py`): pack three sensor colors
into one byte as `(S3[7:6] | S2[4:3] | S1[1:0])`, each field truncated
to 2 bits. -/
def encode_color_byte (s1 s2 s3 : SensorColor) : Nat :=
  ((color_bits s3 &&& 0x03) <<< 6) |||
    ((color_bits s2 &&& 0x03) <<< 3) |||
    (color_bits s1 &&& 0x03)

/-- The `bits_to_color` dictionary lookup of `decode_color_byte` with its
`.get(_, WHITE)` default. -/
def bits_to_color (n : Nat) : SensorColor :=
  if n = 0 then .WHITE
  else if n = 1 then .RED
  else if n = 2 then .GREEN
  else if n = 3 then .BLUE
  else if n = 4 then .BLACK
  else .WHITE

/-- `decode_color_byte` (`scs_protocol.py`): unpack a color byte into the
three sensor colors `(S1, S2, S3)`. -/
def decode_color_byte (color_byte : Nat) :
    SensorColor × SensorColor × SensorColor :=
  (bits_to_color (color_byte &&& 0x03),
   bits_to_color ((color_byte >>> 3) &&& 0x03),
   bits_to_color ((color_byte >>> 6) &&& 0x03))

/-- Counterexample to C2: the color round-trip fails on the triple
`(BLACK, WHITE, WHITE)` — BLACK (value 4) is truncated to 2 bits by
`encode_color_byte` and decodes as WHITE. -/
theorem C2_color_roundtrip_counterexample :
    decode_color_byte (encode_color_byte .BLACK .WHITE .WHITE) ≠
      (SensorColor.BLACK, SensorColor.WHITE, SensorColor.WHITE) := by
  decide

/-- C2 (amended): the color round-trip
`decode_color_byte (encode_color_byte s1 s2 s3) = (s1, s2, s3)` holds
exactly for the 4×4×4 triples drawn from {WHITE, RED, GREEN, BLUE};
triples containing BLACK are lossy (BLACK truncates to WHITE). -/
theorem C2_color_roundtrip (s1 s2 s3 : SensorColor)
    (h1 : s1 ≠ .BLACK) (h2 : s2 ≠ .BLACK) (h3 : s3 ≠ .BLACK) :
    decode_color_byte (encode_color_byte s1 s2 s3) = (s1, s2, s3) := by
  cases s1 <;> cases s2 <;> cases s3 <;>
    first
      | exact absurd rfl h1
      | exact absurd rfl h2
      | exact absurd rfl h3
      | decide

/-- Witness for C2 (amended) at the concrete triple (RED, GREEN, BLUE). -/
theorem C2_color_roundtrip_witness :
    decode_color_byte (encode_color_byte .RED .GREEN .BLUE) =
      (SensorColor.RED, SensorColor.GREEN, SensorColor.BLUE) :=
  C2_color_roundtrip .RED .GREEN .BLUE (by decide) (by decide) (by decide)

theorem bits_to_color_ne_black (n : Nat) (h : n ≤ 3) :
    bits_to_color n ≠ .BLACK := by
  interval_cases n <;> decide

/-- C10: every decoded sensor field is a 2-bit value, so
`decode_color_byte` never returns BLACK for any input byte; and encoding
a triple with BLACK at a position decodes to WHITE at that position. -/
theorem C10_black_never_decoded (b : Nat) (hb : b ≤ 255) :
    ((decode_color_byte b).1 ≠ .BLACK ∧
     (decode_color_byte b).2.1 ≠ .BLACK ∧
     (decode_color_byte b).2.2 ≠ .BLACK) ∧
    (∀ s2 s3 : SensorColor,
      (decode_color_byte (encode_color_byte .BLACK s2 s3)).1 = .WHITE) ∧
    (∀ s1 s3 : SensorColor,
      (decode_color_byte (encode_color_byte s1 .BLACK s3)).2.1 = .WHITE) ∧
    (∀ s1 s2 : SensorColor,
      (decode_color_byte (encode_color_byte s1 s2 .BLACK)).2.2 = .WHITE) := by
  refine ⟨⟨?_, ?_, ?_⟩, ?_, ?_, ?_⟩
  · exact bits_to_color_ne_black _ (Nat.and_le_right)
  · exact bits_to_color_ne_black _ (Nat.and_le_right)
  · exact bits_to_color_ne_black _ (Nat.and_le_right)
  · intro s2 s3; cases s2 <;> cases s3 <;> decide
  · intro s1 s3; cases s1 <;> cases s3 <;> decide
  · intro s1 s2; cases s1 <;> cases s2 <;> decide

/-- Witness for C10 at the concrete byte 73 (the all-RED sentinel). -/
theorem C10_black_never_decoded_witness :
    ((decode_color_byte 73).1 ≠ .BLACK ∧
     (decode_color_byte 73).2.1 ≠ .BLACK ∧
     (decode_color_byte 73).2.2 ≠ .BLACK) ∧
    (∀ s2 s3 : SensorColor,
      (decode_color_byte (encode_color_byte .BLACK s2 s3)).1 = .WHITE) ∧
    (∀ s1 s3 : SensorColor,
      (decode_color_byte (encode_color_byte s1 .BLACK s3)).2.1 = .WHITE) ∧
    (∀ s1 s2 : SensorColor,
      (decode_color_byte (encode_color_byte s1 s2 .BLACK)).2.2 = .WHITE) :=
  C10_black_never_decoded 73 (by decide)

/-- The `color_map` dictionary lookup of `SCSPacket._decode_color_packet`
with its `.get(s, str(s))` default. -/
def color_map_get (n : Nat) : String :=
  if n = 0 then "WHITE"
  else if n = 1 then "RED"
  else if n = 2 then "GREEN"
  else if n = 3 then "BLUE"
  else if n = 4 then "BLACK"
  else toString n

/-- `SCSPacket._decode_color_packet` (`scs_protocol.py`): describe the
color encoding carried in `dat0` of a MAZE:SS:IST1 packet, with the
special sentinels 0 (all white) and 73 (all RED, end-of-maze). -/
def SCSPacket.decode_color_packet (p : SCSPacket) : String :=
  let color_val := p.dat0
  if color_val = 0 then "All WHITE"
  else if color_val = 73 then "All RED (End-of-Maze)"
  else
    let s1 := color_val &&& 0x03
    let s2 := (color_val >>> 3) &&& 0x03
    let s3 := (color_val >>> 6) &&& 0x03
    let colors :=
      (if s1 = 2 ∨ s1 = 3 ∨ s1 = 4 then ["S1=" ++ color_map_get s1] else []) ++
      (if s2 = 1 ∨ s2 = 2 ∨ s2 = 3 ∨ s2 = 4 then ["S2=" ++ color_map_get s2] else []) ++
      (if s3 = 2 ∨ s3 = 3 ∨ s3 = 4 then ["S3=" ++ color_map_get s3] else [])
    if colors ≠ [] then String.intercalate ", " colors
    else "Color code: " ++ toString color_val

/-- Predefined color patterns (`scs_protocol.py` module constants). -/
def COLOR_ALL_WHITE : Nat := 0

/-- `COLOR_S2_GREEN` — green on the center sensor (value 16). -/
def COLOR_S2_GREEN : Nat := encode_color_byte .WHITE .GREEN .WHITE

/-- `COLOR_S2_RED` — red on the center sensor (value 8). -/
def COLOR_S2_RED : Nat := encode_color_byte .WHITE .RED .WHITE

/-- `COLOR_S2_BLUE` — blue on the center sensor (value 24). -/
def COLOR_S2_BLUE : Nat := encode_color_byte .WHITE .BLUE .WHITE

/-- `COLOR_S2_BLACK` — black on the center sensor (value 32 by the 2-bit
truncation in `encode_color_byte`... the source comment says 32 but the
2-bit mask makes the actual value 0; kept as the source computes it). -/
def COLOR_S2_BLACK : Nat := encode_color_byte .WHITE .BLACK .WHITE

/-- `COLOR_S1_GREEN` — green on the left edge sensor (value 2). -/
def COLOR_S1_GREEN : Nat := encode_color_byte .GREEN .WHITE .WHITE

/-- `COLOR_S3_GREEN` — green on the right edge sensor (value 128). -/
def COLOR_S3_GREEN : Nat := encode_color_byte .WHITE .WHITE .GREEN

/-- `COLOR_ALL_RED` — the all-RED end-of-maze sentinel byte. -/
def COLOR_ALL_RED : Nat := 73

/-- The `conditions_met` dictionary of `is_valid_transition`: the
validator reads exactly these five keys, each with `.get(key, False)`,
so an absent key behaves as a `false` field. -/
structure Conditions where
  touch_sensor : Bool := false
  ss_eoc : Bool := false
  mdps_eoc : Bool := false
  pure_tone : Bool := false
  end_of_maze : Bool := false
deriving DecidableEq, Repr

/-- `is_valid_transition` (`scs_protocol.py`): validate a proposed state
transition against the SCS state machine rule table. -/
def is_valid_transition (current_state next_state : SystemState)
    (conditions_met : Conditions) : Bool :=
  if current_state = .IDLE ∧ next_state = .CAL then
    conditions_met.touch_sensor
  else if current_state = .CAL ∧ next_state = .MAZE then
    conditions_met.ss_eoc && conditions_met.mdps_eoc
  else if (current_state = .MAZE ∧ next_state = .SOS) ∨
      (current_state = .SOS ∧ next_state = .MAZE) then
    conditions_met.pure_tone
  else if current_state = .MAZE ∧ next_state = .IDLE then
    conditions_met.end_of_maze
  else
    false

/-- C3: `is_valid_transition` returns `true` exactly when the pair is one
of the four table entries and the required conditions hold (IDLE→CAL
with touch; CAL→MAZE with both EOCs; MAZE↔SOS with pure tone; MAZE→IDLE
with end-of-maze); every other pair yields `false`.  The function is
pure, so rejection has no side effect. -/
theorem C3_transition_table (f t : SystemState) (c : Conditions) :
    is_valid_transition f t c = true ↔
      ((f = .IDLE ∧ t = .CAL ∧ c.touch_sensor = true) ∨
       (f = .CAL ∧ t = .MAZE ∧ c.ss_eoc = true ∧ c.mdps_eoc = true) ∨
       (((f = .MAZE ∧ t = .SOS) ∨ (f = .SOS ∧ t = .MAZE)) ∧
         c.pure_tone = true) ∨
       (f = .MAZE ∧ t = .IDLE ∧ c.end_of_maze = true)) := by
  obtain ⟨c1, c2, c3, c4, c5⟩ := c
  cases f <;> cases t <;>
    cases c1 <;> cases c2 <;> cases c3 <;> cases c4 <;> cases c5 <;> decide

/-- Helper: success test for `Except` results. -/
def exceptOk {α : Type} (e : Except String α) : Bool :=
  match e with
  | .ok _ => true
  | .error _ => false

/-- C6: `create_control_byte` fails exactly when `ist` lies outside
`[0, 15]`; packet construction (`__post_init__`) fails exactly when some
field lies outside `[0, 255]`; and on success the stored fields equal the
inputs — no silent coercion. -/
theorem C6_range_validation :
    (∀ (s : SystemState) (sub : SubsystemID) (ist : Int),
      exceptOk (create_control_byte s sub ist) = true ↔
        (0 ≤ ist ∧ ist ≤ 15)) ∧
    (∀ c d1 d0 dc : Int,
      exceptOk (mkSCSPacket c d1 d0 dc) = true ↔
        ((0 ≤ c ∧ c ≤ 255) ∧ (0 ≤ d1 ∧ d1 ≤ 255) ∧
         (0 ≤ d0 ∧ d0 ≤ 255) ∧ (0 ≤ dc ∧ dc ≤ 255))) ∧
    (∀ (c d1 d0 dc : Int) (p : SCSPacket),
      mkSCSPacket c d1 d0 dc = .ok p →
        (p.control : Int) = c ∧ (p.dat1 : Int) = d1 ∧
        (p.dat0 : Int) = d0 ∧ (p.dec : Int) = dc) := by
  refine ⟨?_, ?_, ?_⟩
  · intro s sub ist
    unfold create_control_byte
    split <;> simp [exceptOk] <;> omega
  · intro c d1 d0 dc
    unfold mkSCSPacket
    split
    · split
      · split
        · split <;> simp_all [exceptOk]
        · simp_all [exceptOk]
      · simp_all [exceptOk]
    · simp_all [exceptOk]
  · intro c d1 d0 dc p h
    unfold mkSCSPacket at h
    split at h
    · split at h
      · split at h
        · split at h
          · injection h with h2
            subst h2
            refine ⟨?_, ?_, ?_, ?_⟩ <;> simp <;> omega
          · exact Except.noConfusion h
        · exact Except.noConfusion h
      · exact Except.noConfusion h
    · exact Except.noConfusion h

/-- Witness for C6: the component statements applied at concrete inputs
(valid control byte request, valid packet, and a concrete success). -/
theorem C6_range_validation_witness :
    (exceptOk (create_control_byte .MAZE .SS 16) = true ↔
      ((0:Int) ≤ 16 ∧ (16:Int) ≤ 15)) ∧
    (exceptOk (mkSCSPacket 177 0 16 0) = true ↔
      (((0:Int) ≤ 177 ∧ (177:Int) ≤ 255) ∧ ((0:Int) ≤ 0 ∧ (0:Int) ≤ 255) ∧
       ((0:Int) ≤ 16 ∧ (16:Int) ≤ 255) ∧ ((0:Int) ≤ 0 ∧ (0:Int) ≤ 255))) ∧
    (((⟨177, 0, 16, 0⟩ : SCSPacket).control : Int) = 177 ∧
     ((⟨177, 0, 16, 0⟩ : SCSPacket).dat1 : Int) = 0 ∧
     ((⟨177, 0, 16, 0⟩ : SCSPacket).dat0 : Int) = 16 ∧
     ((⟨177, 0, 16, 0⟩ : SCSPacket).dec : Int) = 0) :=
  ⟨C6_range_validation.1 .MAZE .SS 16,
   C6_range_validation.2.1 177 0 16 0,
   C6_range_validation.2.2 177 0 16 0 ⟨177, 0, 16, 0⟩ rfl⟩

end SCS

namespace NavconDecisions

/-!
Embedding of `NAVCONDecisionTester` from
`src/Simulation/Python_Tests/Command_Tests/test_navcon_decisions.py`:
the expected-behavior oracle `get_expected_behavior(angle, color_key)`.
-/

open SCS

/-- The keys of the `self.colors` dictionary of `NAVCONDecisionTester`. -/
inductive ColorKey
  | WHITE
  | S2_RED
  | S2_GREEN
  | S2_BLUE
  | S2_BLACK
  | S1_GREEN
  | S3_GREEN
  | ALL_RED
deriving DecidableEq, Repr

/-- The key string of each `self.colors` entry. -/
def ColorKey.keyName : ColorKey → String
  | .WHITE => "WHITE"
  | .S2_RED => "S2_RED"
  | .S2_GREEN => "S2_GREEN"
  | .S2_BLUE => "S2_BLUE"
  | .S2_BLACK => "S2_BLACK"
  | .S1_GREEN => "S1_GREEN"
  | .S3_GREEN => "S3_GREEN"
  | .ALL_RED => "ALL_RED"

/-- The color byte of each `self.colors` entry (the `COLOR_*` module
constants of `scs_protocol.py`). -/
def ColorKey.code : ColorKey → Nat
  | .WHITE => COLOR_ALL_WHITE
  | .S2_RED => COLOR_S2_RED
  | .S2_GREEN => COLOR_S2_GREEN
  | .S2_BLUE => COLOR_S2_BLUE
  | .S2_BLACK => COLOR_S2_BLACK
  | .S1_GREEN => COLOR_S1_GREEN
  | .S3_GREEN => COLOR_S3_GREEN
  | .ALL_RED => COLOR_ALL_RED

/-- Character-list version of "starts with". -/
def charsStartWith : List Char → List Char → Bool
  | [], _ => true
  | _ :: _, [] => false
  | a :: as, b :: bs => a == b && charsStartWith as bs

/-- Character-list version of "contains as contiguous sublist". -/
def charsContain (sub : List Char) : List Char → Bool
  | [] => sub.isEmpty
  | b :: bs => charsStartWith sub (b :: bs) || charsContain sub bs

/-- Python's substring test `sub in s`. -/
def strContainsSub (s sub : String) : Bool :=
  charsContain sub.toList s.toList

/-- `NAVCONDecisionTester.get_expected_behavior(angle, color_key)`:
obstacle colors (key containing "BLUE"/"BLACK") dominate, then the
all-RED end-of-maze key, then the angle banding for navigable lines.
Note the angle is compared signed, with no absolute value. -/
def get_expected_behavior (angle : Int) (color_key : ColorKey) : String :=
  if strContainsSub color_key.keyName "BLUE" ||
      strContainsSub color_key.keyName "BLACK" then
    "AVOID - Rotate away from obstacle"
  else if color_key.keyName = "ALL_RED" then
    "STOP - End-of-maze detected"
  else if angle ≤ 5 then
    "FORWARD - Direct crossing at " ++ toString angle ++ "°"
  else if angle ≤ 45 then
    "ALIGN - Incremental correction for " ++ toString angle ++ "°"
  else
    "ROTATE - Major rotation for " ++ toString angle ++ "°"

/-- The spec's angle bands. -/
inductive AngleCategory
  | STRAIGHT
  | ALIGNMENT
  | STEEP
deriving DecidableEq, Repr

/-- The angle banding used by `get_expected_behavior` for navigable
(non-obstacle, non-all-RED) colors: `angle ≤ 5`, `angle ≤ 45`, else. -/
def classify_angle (angle : Int) : AngleCategory :=
  if angle ≤ 5 then .STRAIGHT
  else if angle ≤ 45 then .ALIGNMENT
  else .STEEP

/-- For navigable color keys, `get_expected_behavior` is the banding of
`classify_angle` rendered as the three band strings. -/
theorem get_expected_behavior_eq_band (angle : Int) (ck : ColorKey)
    (h : ck = .WHITE ∨ ck = .S2_RED ∨ ck = .S2_GREEN ∨
      ck = .S1_GREEN ∨ ck = .S3_GREEN) :
    get_expected_behavior angle ck =
      match classify_angle angle with
      | .STRAIGHT => "FORWARD - Direct crossing at " ++ toString angle ++ "°"
      | .ALIGNMENT => "ALIGN - Incremental correction for " ++ toString angle ++ "°"
      | .STEEP => "ROTATE - Major rotation for " ++ toString angle ++ "°" := by
  rcases h with rfl | rfl | rfl | rfl | rfl <;>
    · unfold get_expected_behavior classify_angle
      rw [if_neg (by decide), if_neg (by decide)]
      by_cases h5 : angle ≤ 5
      · rw [if_pos h5, if_pos h5]
      · by_cases h45 : angle ≤ 45
        · rw [if_neg h5, if_neg h5, if_pos h45, if_pos h45]
        · rw [if_neg h5, if_neg h5, if_neg h45, if_neg h45]

/-- C4: the angle band boundaries are inclusive on each band's lower
bound: 5 is STRAIGHT, 6 and 45 are ALIGNMENT, 46 is STEEP, both for
`classify_angle` and for the strings `get_expected_behavior` produces on
a navigable color. -/
theorem C4_angle_boundaries :
    classify_angle 5 = .STRAIGHT ∧ classify_angle 6 = .ALIGNMENT ∧
    classify_angle 45 = .ALIGNMENT ∧ classify_angle 46 = .STEEP ∧
    get_expected_behavior 5 .S2_GREEN = "FORWARD - Direct crossing at 5°" ∧
    get_expected_behavior 6 .S2_GREEN = "ALIGN - Incremental correction for 6°" ∧
    get_expected_behavior 45 .S2_GREEN = "ALIGN - Incremental correction for 45°" ∧
    get_expected_behavior 46 .S2_GREEN = "ROTATE - Major rotation for 46°" :=
  ⟨rfl, rfl, rfl, rfl, by decide, by decide, by decide, by decide⟩

/-- C5: for every angle, the all-RED color key yields the STOP +
end-of-maze behavior — the angle input is never consulted; the all-RED
key carries the sentinel byte 73, and any packet whose `dat0` is 73 is
described as the all-RED end-of-maze packet. -/
theorem C5_all_red_stop (angle : Int) :
    get_expected_behavior angle .ALL_RED = "STOP - End-of-maze detected" ∧
    ColorKey.code .ALL_RED = 73 ∧
    (∀ p : SCSPacket, p.dat0 = 73 →
      p.decode_color_packet = "All RED (End-of-Maze)") := by
  refine ⟨rfl, rfl, ?_⟩
  intro p hp
  unfold SCSPacket.decode_color_packet
  rw [hp]
  decide

/-- Witness for C5 at angle 90 and the packet (177, 0, 73, 0). -/
theorem C5_all_red_stop_witness :
    get_expected_behavior 90 .ALL_RED = "STOP - End-of-maze detected" ∧
    ColorKey.code .ALL_RED = 73 ∧
    (∀ p : SCSPacket, p.dat0 = 73 →
      p.decode_color_packet = "All RED (End-of-Maze)") :=
  C5_all_red_stop 90

/-- Counterexample to C8: classification does not take the absolute
value — the angle −50 is banded STRAIGHT (`−50 ≤ 5`) while its magnitude
50 is banded STEEP, and `get_expected_behavior` renders −50 as a direct
forward crossing. -/
theorem C8_negative_angle_counterexample :
    classify_angle (-50) = .STRAIGHT ∧ classify_angle 50 = .STEEP ∧
    classify_angle (-50) ≠ classify_angle 50 ∧
    get_expected_behavior (-50) .S2_GREEN =
      "FORWARD - Direct crossing at -50°" ∧
    get_expected_behavior 50 .S2_GREEN =
      "ROTATE - Major rotation for 50°" := by
  refine ⟨rfl, rfl, by decide, by decide, by decide⟩

/-- C8 (amended): negative angles are banded signed, not by magnitude:
every negative angle satisfies `angle ≤ 5` and is classified STRAIGHT
(direct forward crossing), so a negative angle agrees with the band of
its absolute value only when that magnitude is at most 5. -/
theorem C8_negative_angle_signed (a : Int) (ha : a < 0) :
    classify_angle a = .STRAIGHT ∧
    get_expected_behavior a .S2_GREEN =
      "FORWARD - Direct crossing at " ++ toString a ++ "°" := by
  constructor
  · unfold classify_angle
    rw [if_pos (by omega)]
  · rw [get_expected_behavior_eq_band a .S2_GREEN (by tauto)]
    unfold classify_angle
    rw [if_pos (by omega)]

/-- Witness for C8 (amended) at angle −50. -/
theorem C8_negative_angle_signed_witness :
    classify_angle (-50) = .STRAIGHT ∧
    get_expected_behavior (-50) .S2_GREEN =
      "FORWARD - Direct crossing at " ++ toString (-50 : Int) ++ "°" :=
  C8_negative_angle_signed (-50) (by decide)

end NavconDecisions

namespace NavconState

/-!
Embedding of `src/Phase 1/NAVCON/Navcon_state.py`: the `NAVCONAction`
enumeration and `SimpleTester._decode`, which decodes the NAVCON decision
packet mirrored by the SNC firmware.
-/

open SCS (SCSPacket)

/-- `NAVCONAction` (`Navcon_state.py`). -/
inductive NAVCONAction
  | FORWARD
  | BACKWARD
  | ROTATE_L
  | ROTATE_R
  | STOP
  | STEER
  | L180
  | R180
  | L360
  | ERROR
deriving DecidableEq, Repr

/-- `SimpleTester._decode` (`Navcon_state.py`): map a decision packet to
an action and description, routing on `dec` and — for rotations — on the
16-bit magnitude `(dat1 << 8) | dat0`. -/
def SimpleTester._decode (pkt : SCSPacket) : NAVCONAction × String :=
  let dec := pkt.dec
  if dec = 0 then
    (.FORWARD, "Forward R=" ++ toString pkt.dat1 ++ " L=" ++ toString pkt.dat0)
  else if dec = 1 then
    (.BACKWARD, "Backward R=" ++ toString pkt.dat1 ++ " L=" ++ toString pkt.dat0)
  else if dec = 2 then
    let ang := (pkt.dat1 <<< 8) ||| pkt.dat0
    if ang = 180 then (.L180, "Left 180°")
    else if ang = 360 then (.L360, "Left 360°")
    else if ang ≤ 10 then (.STEER, "Left steer " ++ toString ang ++ "°")
    else (.ROTATE_L, "Left " ++ toString ang ++ "°")
  else if dec = 3 then
    let ang := (pkt.dat1 <<< 8) ||| pkt.dat0
    if ang = 180 then (.R180, "Right 180°")
    else if ang ≤ 10 then (.STEER, "Right steer " ++ toString ang ++ "°")
    else (.ROTATE_R, "Right " ++ toString ang ++ "°")
  else if dec = 4 then (.STOP, "Stop")
  else (.ERROR, "Unknown DEC=" ++ toString dec)

end NavconState

namespace NavconTester

/-!
Embedding of `src/Phase 1/NAVCON/NaVCON_Tester.py`: its `SubsystemID`
and `NAVCONAction` enumerations, the `SCSPacket` bit-field properties,
and `decode_navcon_response`.
-/

open SCS (SCSPacket)

/-- `SubsystemID` (`NaVCON_Tester.py`). -/
inductive SubsystemID
  | SUB_HUB
  | SUB_SNC
  | SUB_MDPS
  | SUB_SS
deriving DecidableEq, Repr

/-- Conversion of a 2-bit masked value to a `SubsystemID`
(the Python `SubsystemID(x)` call on a masked value). -/
def SubsystemID.fromNat : Nat → SubsystemID
  | 0 => .SUB_HUB
  | 1 => .SUB_SNC
  | 2 => .SUB_MDPS
  | _ => .SUB_SS

/-- `SCSPacket.subsystem_id` property (`NaVCON_Tester.py`). -/
def subsystem_id (p : SCSPacket) : SubsystemID :=
  SubsystemID.fromNat ((p.control >>> 4) &&& 0x03)

/-- `SCSPacket.internal_state` property (`NaVCON_Tester.py`). -/
def internal_state (p : SCSPacket) : Nat :=
  p.control &&& 0x0F

/-- `NAVCONAction` (`NaVCON_Tester.py`). -/
inductive NAVCONAction
  | ACT_STOP
  | ACT_FORWARD
  | ACT_BACKWARD
  | ACT_TURN_LEFT
  | ACT_TURN_RIGHT
  | ACT_TURN_180_LEFT
  | ACT_TURN_180_RIGHT
  | ACT_TURN_360_LEFT
  | ACT_DIFFERENTIAL_STEER
  | ACT_WALL_FOLLOW_TURN
  | ACT_STEERING_CORRECTION
  | ACT_ERROR_STOP
deriving DecidableEq, Repr

/-- `decode_navcon_response` (`NaVCON_Tester.py`): decode a NAVCON
response packet; packets not of the SNC/IST-3 shape are format errors,
rotations of exactly 180 (and 360 left) are named turns, rotations of at
most 10 degrees are steering corrections. -/
def decode_navcon_response (packet : SCSPacket) : NAVCONAction × String :=
  if subsystem_id packet ≠ .SUB_SNC ∨ internal_state packet ≠ 3 then
    (.ACT_ERROR_STOP, "Invalid NAVCON packet format")
  else if packet.dec = 0 then
    if packet.dat1 = 0 ∧ packet.dat0 = 0 then (.ACT_STOP, "Stop")
    else (.ACT_FORWARD,
      "Forward L=" ++ toString packet.dat0 ++ " R=" ++ toString packet.dat1)
  else if packet.dec = 1 then
    (.ACT_BACKWARD,
      "Backward L=" ++ toString packet.dat0 ++ " R=" ++ toString packet.dat1)
  else if packet.dec = 2 then
    let rotation := (packet.dat1 <<< 8) ||| packet.dat0
    if rotation = 180 then (.ACT_TURN_180_LEFT, "180° Left Turn")
    else if rotation = 360 then (.ACT_TURN_360_LEFT, "360° Left Turn")
    else if rotation ≤ 10 then
      (.ACT_STEERING_CORRECTION,
        "Steering Correction " ++ toString rotation ++ "° Left")
    else (.ACT_TURN_LEFT, toString rotation ++ "° Left Turn")
  else if packet.dec = 3 then
    let rotation := (packet.dat1 <<< 8) ||| packet.dat0
    if rotation = 180 then (.ACT_TURN_180_RIGHT, "180° Right Turn")
    else if rotation ≤ 10 then
      (.ACT_STEERING_CORRECTION,
        "Steering Correction " ++ toString rotation ++ "° Right")
    else (.ACT_TURN_RIGHT, toString rotation ++ "° Right Turn")
  else
    (.ACT_ERROR_STOP, "Unknown dec=" ++ toString packet.dec)

/-- C7: for a well-formed NAVCON response packet (SNC, IST 3) with
rotation `dec` 2 or 3, a rotation magnitude `(dat1 << 8) | dat0` of at
most 10 decodes to a steering correction in both Phase-1 decoders, while
a magnitude of exactly 180 decodes to the named 180° turn of the
corresponding direction and — for `dec = 2` — a magnitude of exactly 360
decodes to the named 360° left turn. -/
theorem C7_small_rotation_is_steering (p : SCSPacket)
    (hsub : subsystem_id p = .SUB_SNC) (hist : internal_state p = 3) :
    (((p.dat1 <<< 8) ||| p.dat0) ≤ 10 → (p.dec = 2 ∨ p.dec = 3) →
      (decode_navcon_response p).1 = .ACT_STEERING_CORRECTION ∧
      (NavconState.SimpleTester._decode p).1 = .STEER) ∧
    (((p.dat1 <<< 8) ||| p.dat0) = 180 →
      (p.dec = 2 →
        (decode_navcon_response p).1 = .ACT_TURN_180_LEFT ∧
        (NavconState.SimpleTester._decode p).1 = .L180) ∧
      (p.dec = 3 →
        (decode_navcon_response p).1 = .ACT_TURN_180_RIGHT ∧
        (NavconState.SimpleTester._decode p).1 = .R180)) ∧
    (((p.dat1 <<< 8) ||| p.dat0) = 360 → p.dec = 2 →
      (decode_navcon_response p).1 = .ACT_TURN_360_LEFT ∧
      (NavconState.SimpleTester._decode p).1 = .L360) := by
  refine ⟨?_, ?_, ?_⟩
  · rintro hrot (hdec | hdec) <;>
      simp [decode_navcon_response, NavconState.SimpleTester._decode,
        hsub, hist, hdec, hrot, show ((p.dat1 <<< 8) ||| p.dat0) ≠ 180 by omega,
        show ((p.dat1 <<< 8) ||| p.dat0) ≠ 360 by omega]
  · intro hrot
    constructor
    · intro hdec
      simp [decode_navcon_response, NavconState.SimpleTester._decode,
        hsub, hist, hdec, hrot]
    · intro hdec
      simp [decode_navcon_response, NavconState.SimpleTester._decode,
        hsub, hist, hdec, hrot]
  · intro hrot hdec
    simp [decode_navcon_response, NavconState.SimpleTester._decode,
      hsub, hist, hdec, hrot]

/-- Witness for C7 at the concrete packets (147, 0, 5, 2) — a 5° left
steering correction, (147, 0, 180, 3) — a 180° right turn, and
(147, 1, 104, 2) — a 360° left turn. -/
theorem C7_small_rotation_is_steering_witness :
    ((decode_navcon_response ⟨147, 0, 5, 2⟩).1 = .ACT_STEERING_CORRECTION ∧
      (NavconState.SimpleTester._decode ⟨147, 0, 5, 2⟩).1 = .STEER) ∧
    ((decode_navcon_response ⟨147, 0, 180, 3⟩).1 = .ACT_TURN_180_RIGHT ∧
      (NavconState.SimpleTester._decode ⟨147, 0, 180, 3⟩).1 = .R180) ∧
    ((decode_navcon_response ⟨147, 1, 104, 2⟩).1 = .ACT_TURN_360_LEFT ∧
      (NavconState.SimpleTester._decode ⟨147, 1, 104, 2⟩).1 = .L360) :=
  ⟨(C7_small_rotation_is_steering ⟨147, 0, 5, 2⟩ (by decide) (by decide)).1
      (by decide) (Or.inl rfl),
   ((C7_small_rotation_is_steering ⟨147, 0, 180, 3⟩ (by decide) (by decide)).2.1
      (by decide)).2 rfl,
   (C7_small_rotation_is_steering ⟨147, 1, 104, 2⟩ (by decide) (by decide)).2.2
      (by decide) rfl⟩

end NavconTester

namespace ToneValidator

/-!
The pure-tone dual-detection validator itself runs in the SNC firmware
and is not part of the Python sources under `src/`; `test_pure_tone.py`
only drives it from the outside.  The state machine below is therefore
modelled from the spec (§4.5).
-/

open SCS (SystemState)

/-- Modelled from the spec: a `ToneEvent` records the end time of a
detected tone and its duration in milliseconds. -/
structure ToneEvent where
  end_time : Nat
  duration_ms : Nat
deriving DecidableEq, Repr

/-- Modelled from the spec: the validator's two waiting states, the
second retaining the 2000 ms deadline derived from the first tone. -/
inductive ToneState
  | WAITING_FIRST
  | WAITING_SECOND (deadline : Nat)
deriving DecidableEq, Repr

/-- Modelled from the spec: one transition of the dual-tone validator on
a tone-end event; the returned flag is `true` exactly on ACCEPT, after
which the machine resets to `WAITING_FIRST`.  An expired deadline makes
the new tone a candidate fresh first tone; an out-of-range second tone
leaves the stored first tone and its deadline active. -/
def tone_step : ToneState → ToneEvent → ToneState × Bool
  | .WAITING_FIRST, e =>
    if 500 ≤ e.duration_ms ∧ e.duration_ms ≤ 1000 then
      (.WAITING_SECOND (e.end_time + 2000), false)
    else
      (.WAITING_FIRST, false)
  | .WAITING_SECOND deadline, e =>
    if deadline < e.end_time then
      if 500 ≤ e.duration_ms ∧ e.duration_ms ≤ 1000 then
        (.WAITING_SECOND (e.end_time + 2000), false)
      else
        (.WAITING_FIRST, false)
    else if 500 ≤ e.duration_ms ∧ e.duration_ms ≤ 1000 then
      (.WAITING_FIRST, true)
    else
      (.WAITING_SECOND deadline, false)

/-- Modelled from the spec: the MAZE ↔ SOS toggle fired on ACCEPT. -/
def toggle_maze_sos : SystemState → SystemState
  | .MAZE => .SOS
  | .SOS => .MAZE
  | s => s

/-- Modelled from the spec: run the validator over a stream of tone-end
events from a given state and system state, reporting the final
validator state, the final system state, and whether any event was
accepted. -/
def tone_run (s : ToneState) (sys : SystemState) :
    List ToneEvent → ToneState × SystemState × Bool
  | [] => (s, sys, false)
  | e :: rest =>
    let step := tone_step s e
    let sys2 := if step.2 then toggle_maze_sos sys else sys
    let next := tone_run step.1 sys2 rest
    (next.1, next.2.1, step.2 || next.2.2)

/-- C9: a stream consisting of exactly one tone-end event — whatever its
duration and end time — never reaches ACCEPT from the initial
`WAITING_FIRST` state and never toggles the MAZE/SOS system state. -/
theorem C9_single_tone_never_accepts (e : ToneEvent) (sys : SystemState) :
    (tone_run .WAITING_FIRST sys [e]).2.2 = false ∧
    (tone_run .WAITING_FIRST sys [e]).2.1 = sys := by
  have h : (tone_step .WAITING_FIRST e).2 = false := by
    simp only [tone_step]
    split <;> rfl
  simp [tone_run, h]

end ToneValidator
